import Mathlib

/-!
Shallow embedding of the Backstage catalog table component
(src/unnamed/part_000, the file defining CatalogTable, LegacyCatalogTable,
defaultColumnsFunc, refCompare, toEntityRow and defaultActions): the data
model for entities, filters, columns and rows, the column-selection policy,
the row projection, the legacy table assembly and the top-level render
dispatch, together with theorems settling the frozen claims about them.

External collaborators of the component that are part of the Backstage
repository but absent from this excerpt (getEntityRelations,
humanizeEntityRef, stringifyEntityRef) and the external libraries lodash
(capitalize) and pluralize are modelled from the specification; their
definitions carry a doc comment saying so.

JavaScript semantics is embedded explicitly where it matters: values of
type string-or-undefined become Option String, JavaScript truthiness of
such values (undefined and the empty string are falsy) is the function
jsTruthyStr, and the in-place Array.prototype.sort on the entities array is
modelled as a stable sort whose result is also the content of the caller
array after the render.
-/

/-- A compound entity reference: the kind, namespace and name triple that
identifies a catalog entity. -/
structure CompoundEntityRef where
  kind : String
  ns : String
  name : String
  deriving DecidableEq

/-- One typed relation entry of an entity. In the source each relation
carries a type string and a target reference. -/
structure EntityRelation where
  type : String
  targetRef : CompoundEntityRef
  deriving DecidableEq

/-- Entity metadata: name, optional namespace, title and description, tags
and annotations (a string-keyed map, embedded as an association list; an
absent map is the empty list). Optional string fields are None when the
JavaScript value is undefined. -/
structure EntityMeta where
  name : String
  ns : Option String := none
  title : Option String := none
  description : Option String := none
  tags : List String := []
  annotations : List (String × String) := []
  deriving DecidableEq

/-- A catalog entity as the table consumes it: kind, metadata, relations. -/
structure Entity where
  kind : String
  metadata : EntityMeta
  relations : List EntityRelation := []
  deriving DecidableEq

/-- The view-URL annotation key from the catalog model package. -/
def ANNOTATION_VIEW_URL : String := "backstage.io/view-url"

/-- The edit-URL annotation key from the catalog model package. -/
def ANNOTATION_EDIT_URL : String := "backstage.io/edit-url"

/-- The owned-by relation type from the catalog model package. -/
def RELATION_OWNED_BY : String := "ownedBy"

/-- The part-of relation type from the catalog model package. -/
def RELATION_PART_OF : String := "partOf"

/-- JavaScript truthiness of a string-or-undefined value: undefined and the
empty string are falsy, every other string is truthy. -/
def jsTruthyStr : Option String → Bool
  | none => false
  | some s => s != ""

/-- Case folding helper used by the modelled reference functions, written
over the character list so that closed statements evaluate inside the
kernel. -/
def lowerStr (s : String) : String := String.mk (s.data.map Char.toLower)

/-- Modelled from the spec: getEntityRelations of the catalog-react package
is not part of this excerpt. Per the spec it returns the relations of the
entity that have the requested relation type, optionally filtered to a
target kind (compared case-insensitively). -/
def getEntityRelations (entity : Entity) (relationType : String)
    (filterKind : Option String := none) : List CompoundEntityRef :=
  let rels := (entity.relations.filter (fun r => r.type == relationType)).map
    (fun r => r.targetRef)
  match filterKind with
  | none => rels
  | some k => rels.filter (fun r => lowerStr r.kind == lowerStr k)

/-- Modelled from the spec: humanizeEntityRef of the catalog-react package
is not part of this excerpt. Per the spec it renders a shortened
human-readable form of a reference: the kind part is omitted when it equals
the given default kind (compared case-insensitively) and the namespace part
is omitted when it is the default namespace. -/
def humanizeRef (r : CompoundEntityRef) (defaultKind : Option String) : String :=
  let kindPart := match defaultKind with
    | some dk => if lowerStr r.kind = lowerStr dk then "" else r.kind
    | none => r.kind
  let nsPart := if r.ns = "default" ∨ r.ns = "" then "" else r.ns
  (if kindPart = "" then "" else kindPart ++ ":") ++
    (if nsPart = "" then "" else nsPart ++ "/") ++ r.name

/-- The compound reference of an entity; an unset namespace defaults to the
default namespace. -/
def entityCompoundRef (e : Entity) : CompoundEntityRef :=
  { kind := e.kind, ns := e.metadata.ns.getD "default", name := e.metadata.name }

/-- Modelled from the spec: humanizeEntityRef applied to a whole entity. -/
def humanizeEntityRef (e : Entity) (defaultKind : Option String) : String :=
  humanizeRef (entityCompoundRef e) defaultKind

/-- Modelled from the spec: stringifyEntityRef of the catalog model package
is not part of this excerpt. Per the spec it is the canonical unique
identifier string of an entity: the kind, namespace and name tuple rendered
as one string. -/
def stringifyEntityRef (e : Entity) : String :=
  lowerStr e.kind ++ ":" ++ lowerStr (e.metadata.ns.getD "default") ++ "/" ++
    e.metadata.name

/-- The display name computed by toRef inside refCompare (source lines
71 to 79): the entity title when truthy (the JavaScript or-operator lets an
empty title fall through), otherwise the humanized reference with default
kind Component. -/
def toRef (entity : Entity) : String :=
  let t := entity.metadata.title.getD ""
  if t = "" then humanizeEntityRef entity (some "Component") else t

/-- refCompare (source lines 71 to 79): compares two entities by the
locale-aware comparison of their display names. The locale-dependent
String.prototype.localeCompare is kept abstract as the comparator parameter
lc, which returns a negative, zero or positive integer. -/
def refCompare (lc : String → String → Int) (a b : Entity) : Int :=
  lc (toRef a) (toRef b)

/-- Which column factory produced a column. -/
inductive ColumnId
  | title
  | name
  | system
  | owner
  | specType
  | specLifecycle
  | specTargets
  | metadataDescription
  | tags
  | namespaceColumn
  deriving DecidableEq

/-- A table column descriptor, with the fields the claims are about: the
factory that produced it, its hidden flag and the default kind handed to
the name column factory. -/
structure TableColumn where
  id : ColumnId
  hidden : Bool := false
  defaultKind : Option String := none
  deriving DecidableEq

namespace columnFactories

/-- The createTitleColumn factory of the columns module. -/
def createTitleColumn (hidden : Bool) : TableColumn :=
  { id := ColumnId.title, hidden := hidden }

/-- The createNameColumn factory of the columns module. -/
def createNameColumn (defaultKind : Option String) : TableColumn :=
  { id := ColumnId.name, defaultKind := defaultKind }

/-- The createSystemColumn factory of the columns module. -/
def createSystemColumn : TableColumn := { id := ColumnId.system }

/-- The createOwnerColumn factory of the columns module. -/
def createOwnerColumn : TableColumn := { id := ColumnId.owner }

/-- The createSpecTypeColumn factory of the columns module. -/
def createSpecTypeColumn (hidden : Bool) : TableColumn :=
  { id := ColumnId.specType, hidden := hidden }

/-- The createSpecLifecycleColumn factory of the columns module. -/
def createSpecLifecycleColumn : TableColumn := { id := ColumnId.specLifecycle }

/-- The createSpecTargetsColumn factory of the columns module. -/
def createSpecTargetsColumn : TableColumn := { id := ColumnId.specTargets }

/-- The createMetadataDescriptionColumn factory of the columns module. -/
def createMetadataDescriptionColumn : TableColumn :=
  { id := ColumnId.metadataDescription }

/-- The createTagsColumn factory of the columns module. -/
def createTagsColumn : TableColumn := { id := ColumnId.tags }

/-- The createNamespaceColumn factory of the columns module. -/
def createNamespaceColumn : TableColumn := { id := ColumnId.namespaceColumn }

end columnFactories

/-- The filter values the component reads from the entity-list context:
the value of the kind filter, of the type filter and of the user filter.
An absent filter is None. -/
structure Filters where
  kind : Option String := none
  type : Option String := none
  user : Option String := none
  deriving DecidableEq

/-- createEntitySpecificColumns (source lines 92 to 120). The switch on the
kind filter value is embedded as the equivalent chain of equality tests, in
source order, with the fall-through case groups kept together; an undefined
kind filter and any value without a case label reach the default branch. -/
def createEntitySpecificColumns (filters : Filters) (entities : List Entity)
    (showTypeColumn : Bool) : List TableColumn :=
  let baseColumns := [
    columnFactories.createSystemColumn,
    columnFactories.createOwnerColumn,
    columnFactories.createSpecTypeColumn (!showTypeColumn),
    columnFactories.createSpecLifecycleColumn]
  if filters.kind = some "user" then []
  else if filters.kind = some "domain" ∨ filters.kind = some "system" then
    [columnFactories.createOwnerColumn]
  else if filters.kind = some "group" ∨ filters.kind = some "template" then
    [columnFactories.createSpecTypeColumn (!showTypeColumn)]
  else if filters.kind = some "location" then
    [columnFactories.createSpecTypeColumn (!showTypeColumn),
     columnFactories.createSpecTargetsColumn]
  else if entities.all (fun entity => entity.metadata.ns = some "default") then
    baseColumns
  else
    baseColumns ++ [columnFactories.createNamespaceColumn]

/-- defaultColumnsFunc (source lines 81 to 121): the type column is shown
exactly when the type filter is undefined; the name column receives the
kind filter value as its default kind. -/
def defaultColumnsFunc (filters : Filters) (entities : List Entity) :
    List TableColumn :=
  let showTypeColumn := filters.type.isNone
  [columnFactories.createTitleColumn true,
   columnFactories.createNameColumn filters.kind] ++
  createEntitySpecificColumns filters entities showTypeColumn ++
  [columnFactories.createMetadataDescriptionColumn,
   columnFactories.createTagsColumn]

/-- The resolved part of a catalog table row (source lines 299 to 322). -/
structure ResolvedEntityData where
  name : String
  entityRef : String
  ownedByRelationsTitle : String
  ownedByRelations : List CompoundEntityRef
  partOfSystemRelationTitle : String
  partOfSystemRelations : List CompoundEntityRef
  deriving DecidableEq

/-- One catalog table row: the entity together with its resolved data. -/
structure CatalogTableRow where
  entity : Entity
  resolved : ResolvedEntityData
  deriving DecidableEq

/-- toEntityRow (source lines 293 to 323). -/
def toEntityRow (entity : Entity) : CatalogTableRow :=
  let partOfSystemRelations :=
    getEntityRelations entity RELATION_PART_OF (some "system")
  let ownedByRelations := getEntityRelations entity RELATION_OWNED_BY none
  { entity := entity,
    resolved := {
      name := humanizeEntityRef entity (some "Component"),
      entityRef := stringifyEntityRef entity,
      ownedByRelationsTitle := String.intercalate ", "
        (ownedByRelations.map (fun r => humanizeRef r (some "group"))),
      ownedByRelations := ownedByRelations,
      partOfSystemRelationTitle := String.intercalate ", "
        (partOfSystemRelations.map (fun r => humanizeRef r (some "system"))),
      partOfSystemRelations := partOfSystemRelations } }

/-- The side effect a row action performs when clicked. -/
inductive ClickEffect
  | noop
  | openUrl (url : String) (target : String)
  | toggleStarred (entity : Entity)
  deriving DecidableEq

/-- One resolved row action: tooltip, disabled flag and click effect. The
icon is purely visual and is not embedded. -/
structure RowAction where
  tooltip : String
  disabled : Bool
  onClick : ClickEffect
  deriving DecidableEq

/-- The View action of defaultActions (source lines 156 to 174): it reads
the view-URL annotation of the row entity; the disabled flag is the
JavaScript negation of the url value and the click handler returns without
effect when the url is falsy, so an undefined and an empty-string
annotation both disable the action and make the handler a no-op. -/
def viewAction (entity : Entity) : RowAction :=
  let url := entity.metadata.annotations.lookup ANNOTATION_VIEW_URL
  { tooltip := "View",
    disabled := !jsTruthyStr url,
    onClick := if jsTruthyStr url then
        ClickEffect.openUrl (url.getD "") "_blank"
      else ClickEffect.noop }

/-- The Edit action of defaultActions (source lines 175 to 193): the same
pattern as the View action, with the edit-URL annotation. -/
def editAction (entity : Entity) : RowAction :=
  let url := entity.metadata.annotations.lookup ANNOTATION_EDIT_URL
  { tooltip := "Edit",
    disabled := !jsTruthyStr url,
    onClick := if jsTruthyStr url then
        ClickEffect.openUrl (url.getD "") "_blank"
      else ClickEffect.noop }

/-- The toggle-favorite action of defaultActions (source lines 194 to 209):
never disabled; tooltip reflects the current starred state; clicking
toggles the starred state of the row entity. -/
def favoriteAction (isStarredEntity : Entity → Bool) (entity : Entity) :
    RowAction :=
  let isStarred := isStarredEntity entity
  { tooltip := if isStarred then "Remove from favorites" else "Add to favorites",
    disabled := false,
    onClick := ClickEffect.toggleStarred entity }

/-- defaultActions (source lines 155 to 210): View, Edit and toggle
favorite, in that order, each resolved per row entity. -/
def defaultActions (isStarredEntity : Entity → Bool) :
    List (Entity → RowAction) :=
  [viewAction, editAction, favoriteAction isStarredEntity]

/-- Caller-supplied table options (the tableOptions prop), restricted to
the keys the claims are about; a key is None when the caller does not
supply it, and a supplied key overrides the default via object spread. -/
structure TableOptionsOverride where
  paging : Option Bool := none
  pageSize : Option Nat := none
  pageSizeOptions : Option (List Nat) := none
  padding : Option String := none
  deriving DecidableEq

/-- The effective options object handed to the Table widget. -/
structure TableOptions where
  paging : Bool
  pageSize : Nat
  actionsColumnIndex : Int
  loadingType : String
  showEmptyDataSourceMessage : Bool
  padding : String
  pageSizeOptions : List Nat
  deriving DecidableEq

/-- The options object built in LegacyCatalogTable (source lines 272 to
281): the defaults listed there, with the caller options spread over them
last, so every key the caller supplies wins. -/
def legacyTableOptions (showPagination : Bool) (loading : Bool)
    (options : Option TableOptionsOverride) : TableOptions :=
  let o := options.getD {}
  { paging := o.paging.getD showPagination,
    pageSize := o.pageSize.getD 20,
    actionsColumnIndex := -1,
    loadingType := "linear",
    showEmptyDataSourceMessage := !loading,
    padding := o.padding.getD "dense",
    pageSizeOptions := o.pageSizeOptions.getD [20, 50, 100] }

/-- The Array.prototype.sort call on source line 265, with comparator
refCompare. Per ECMA-262 the sort is stable and sorts the array in place;
it is embedded as a stable sort (insertion sort) with respect to the
non-positivity of the comparator. The returned list is both what the map
to rows consumes and the content of the caller entities array after the
render, since the sort happens in place. -/
def sortEntities (lc : String → String → Int) (entities : List Entity) :
    List Entity :=
  entities.insertionSort (fun a b => refCompare lc a b ≤ 0)

/-- The content of the caller-supplied entities array after a legacy
render: source line 265 sorts that array in place, so afterwards it holds
the sorted order, not the input order. -/
def entitiesAfterLegacyRender (lc : String → String → Int)
    (entities : List Entity) : List Entity :=
  sortEntities lc entities

/-- The rendered legacy table (LegacyCatalogTable, source lines 244 to
289): the props of the produced Table element that the claims mention. -/
structure LegacyTable where
  isLoading : Bool
  columns : List TableColumn
  options : TableOptions
  title : String
  rows : List CatalogTableRow
  actions : List (Entity → RowAction)
  subtitle : Option String
  emptyContentPresent : Bool

/-- LegacyCatalogTable (source lines 244 to 289): sorts the entities with
refCompare, maps them to rows, shows pagination exactly when there are
more than 20 rows, and builds the options object. -/
def LegacyCatalogTable (lc : String → String → Int)
    (actions : List (Entity → RowAction)) (columns : List TableColumn)
    (emptyContentPresent : Bool) (entities : List Entity) (loading : Bool)
    (options : Option TableOptionsOverride) (subtitle : Option String)
    (title : String) : LegacyTable :=
  let rows := (sortEntities lc entities).map toEntityRow
  let showPagination := rows.length > 20
  { isLoading := loading,
    columns := columns,
    options := legacyTableOptions showPagination loading options,
    title := title,
    rows := rows,
    actions := actions,
    subtitle := subtitle,
    emptyContentPresent := emptyContentPresent }

/-- Modelled from the spec: the lodash capitalize function is not part of
this excerpt; it upcases the first character and downcases the rest. -/
def capitalize (s : String) : String :=
  match s.data with
  | [] => ""
  | c :: cs => String.mk (c.toUpper :: cs.map Char.toLower)

/-- Modelled from the spec: the pluralize library is not part of this
excerpt; only the regular English plural (appending the letter s) is
modelled, which matches the example given in the spec (component becomes
components); the empty string stays empty. -/
def pluralize (s : String) : String := if s = "" then "" else s ++ "s"

/-- The title computed in CatalogTable (source lines 212 to 218 and 235):
capitalized user filter value defaulting to all, then the type filter
value, then the pluralized kind filter value, empty segments dropped,
joined with single spaces, followed by the entity count in parentheses.
The JavaScript or-defaults on lines 212 and 213 and the
nullish-coalescing default on line 215 all become getD here: for the kind
and type filters an undefined value becomes the empty string (and an empty
string stays empty either way), and for the user filter only undefined
becomes the word all, while an empty user value stays empty and its
capitalization stays empty. -/
def catalogTableTitle (filters : Filters) (entityCount : Nat) : String :=
  let currentKind := filters.kind.getD ""
  let currentType := filters.type.getD ""
  let titlePreamble := capitalize (filters.user.getD "all")
  let titleDisplay := String.intercalate " "
    (([titlePreamble, currentType, pluralize currentKind]).filter
      (fun s => s != ""))
  titleDisplay ++ " (" ++ toString entityCount ++ ")"

/-- The entity-list context consumed through useEntityList: the loading
flag, the optional error (embedded as its string representation, the value
that error.toString produces), the entities and the filters. -/
structure EntityListContext where
  loading : Bool
  error : Option String := none
  entities : List Entity
  filters : Filters

/-- CatalogTableProps (source lines 56 to 63), restricted to the fields
the claims are about. The columns prop is embedded as an optional function
of the context (a caller-supplied fixed list is the constant function);
None means the caller did not supply the prop. An absent enablePagination
prop is falsy, hence the default false. -/
structure CatalogTableProps where
  columns : Option (EntityListContext → List TableColumn) := none
  actions : Option (List (Entity → RowAction)) := none
  tableOptions : Option TableOptionsOverride := none
  subtitle : Option String := none
  emptyContentPresent : Bool := false
  enablePagination : Bool := false

/-- The paginated table (PaginatedCatalogTable): it receives the selected
columns and all projected rows, unsorted; sorting and paging are delegated
to it. -/
structure PaginatedTable where
  columns : List TableColumn
  data : List CatalogTableRow
  deriving DecidableEq

/-- The three mutually exclusive render outcomes of CatalogTable: the
error panel (with its fixed panel title and the error text shown in the
code snippet), the paginated table, or the legacy table. -/
inductive RenderOutcome
  | errorPanel (title : String) (text : String)
  | paginated (table : PaginatedTable)
  | legacy (table : LegacyTable)

/-- CatalogTable (source lines 124 to 241): resolve the columns (the
caller function, or else defaultColumnsFunc, applied to the context);
if the context reports an error, render only the error panel; otherwise,
if the pagination flag is set, render the paginated table over the
unsorted projected rows; otherwise render the legacy table with the
composed title, the caller actions or else the default actions, and the
caller table options. -/
def CatalogTable (lc : String → String → Int)
    (isStarredEntity : Entity → Bool) (props : CatalogTableProps)
    (ctx : EntityListContext) : RenderOutcome :=
  let tableColumns := match props.columns with
    | some f => f ctx
    | none => defaultColumnsFunc ctx.filters ctx.entities
  match ctx.error with
  | some err =>
      RenderOutcome.errorPanel "Could not fetch catalog entities." err
  | none =>
      if props.enablePagination then
        RenderOutcome.paginated
          { columns := tableColumns, data := ctx.entities.map toEntityRow }
      else
        RenderOutcome.legacy (LegacyCatalogTable lc
          (props.actions.getD (defaultActions isStarredEntity))
          tableColumns props.emptyContentPresent ctx.entities ctx.loading
          props.tableOptions props.subtitle
          (catalogTableTitle ctx.filters ctx.entities.length))

/-- A concrete total comparator standing in for the abstract locale
comparator in closed statements: it compares strings by length. It is
transitive and total in the non-positive sense, and on every concrete pair
of strings used in the closed statements below its sign agrees with the
default-locale localeCompare. -/
def lcLen (a b : String) : Int := (a.length : Int) - (b.length : Int)

/-- Sample entity whose display name is the one-character title a. -/
def entA : Entity :=
  { kind := "component", metadata := { name := "na", title := some "a" } }

/-- Sample entity whose display name is the two-character title bb. -/
def entB : Entity :=
  { kind := "component", metadata := { name := "nb", title := some "bb" } }

/-- Sample entity whose title is set but empty, so the code falls back to
the humanized reference (which is zz here: the component kind and the
default namespace are omitted). -/
def entEmptyTitle : Entity :=
  { kind := "component", metadata := { name := "zz", title := some "" } }

/-- Sample entity whose view-URL annotation is present but empty. -/
def entEmptyViewUrl : Entity :=
  { kind := "component",
    metadata := { name := "nv", annotations := [(ANNOTATION_VIEW_URL, "")] } }

/-- Sample entity with view-URL and edit-URL annotations set. -/
def entWithUrls : Entity :=
  { kind := "component",
    metadata := { name := "nu",
                  annotations := [(ANNOTATION_VIEW_URL, "https://v.example"),
                                  (ANNOTATION_EDIT_URL, "https://e.example")] } }

/-- Sample entity with no title, no relations and no annotations. -/
def entPlain : Entity :=
  { kind := "component", metadata := { name := "np" } }

/-- Sample entity living explicitly in the default namespace. -/
def entDefaultNs : Entity :=
  { kind := "component", metadata := { name := "nd", ns := some "default" } }

/-- Sample context reporting an error. -/
def ctxErr : EntityListContext :=
  { loading := false, error := some "boom", entities := [], filters := {} }

/-- Sample context with no error and one entity. -/
def ctxPlain : EntityListContext :=
  { loading := false, error := none, entities := [entPlain], filters := {} }

/-- The display name exactly as claim C4 words it, for comparison with the
toRef function of the source: the metadata title whenever it is set (even
when empty), otherwise the humanized reference with default kind
Component. -/
def claimedDisplayName (entity : Entity) : String :=
  match entity.metadata.title with
  | some t => t
  | none => humanizeEntityRef entity (some "Component")

/-- Claim C9: for kind filter user no kind-specific columns are added: the
default column selection is exactly the hidden title column, the name
column with default kind user (the kind filter value), the description
column and the tags column, in that order. -/
theorem user_kind_columns (typeF userF : Option String)
    (entities : List Entity) :
    defaultColumnsFunc { kind := some "user", type := typeF, user := userF }
      entities =
      [columnFactories.createTitleColumn true,
       columnFactories.createNameColumn (some "user"),
       columnFactories.createMetadataDescriptionColumn,
       columnFactories.createTagsColumn] := by
  simp [defaultColumnsFunc, createEntitySpecificColumns]

/-- Claim C10: for kind filter location the default column selection is the
hidden title column, the name column with default kind location, then the
type column followed by the targets column, then description and tags; the
type column is hidden exactly when a type filter is active. -/
theorem location_kind_columns (typeF userF : Option String)
    (entities : List Entity) :
    defaultColumnsFunc
        { kind := some "location", type := typeF, user := userF } entities =
      [columnFactories.createTitleColumn true,
       columnFactories.createNameColumn (some "location"),
       columnFactories.createSpecTypeColumn typeF.isSome,
       columnFactories.createSpecTargetsColumn,
       columnFactories.createMetadataDescriptionColumn,
       columnFactories.createTagsColumn] ∧
    ((columnFactories.createSpecTypeColumn typeF.isSome).hidden = true ↔
      typeF ≠ none) := by
  constructor
  · cases typeF <;> simp [defaultColumnsFunc, createEntitySpecificColumns]
  · cases typeF <;> simp [columnFactories.createSpecTypeColumn]

/-- Claim C2: the error check comes first: whenever the context reports an
error the component renders exactly the error panel carrying the error
text, regardless of the pagination flag; without an error the pagination
flag selects the paginated table, otherwise the legacy table. The three
outcomes are distinct constructors of RenderOutcome, hence mutually
exclusive. -/
theorem catalogTable_outcomes (lc : String → String → Int)
    (isS : Entity → Bool) (props : CatalogTableProps)
    (ctx : EntityListContext) :
    (∀ err, ctx.error = some err →
      CatalogTable lc isS props ctx =
        RenderOutcome.errorPanel "Could not fetch catalog entities." err) ∧
    (ctx.error = none → props.enablePagination = true →
      ∃ t, CatalogTable lc isS props ctx = RenderOutcome.paginated t) ∧
    (ctx.error = none → props.enablePagination = false →
      ∃ t, CatalogTable lc isS props ctx = RenderOutcome.legacy t) := by
  refine ⟨fun err h => ?_, fun h hflag => ?_, fun h hflag => ?_⟩
  · simp only [CatalogTable, h]
  · simp only [CatalogTable, h, hflag]
    exact ⟨_, rfl⟩
  · simp only [CatalogTable, h, hflag]
    exact ⟨_, rfl⟩

/-- Claim C2 witness: a context with error text boom renders the error
panel with that text. -/
theorem catalogTable_outcomes_witness :
    CatalogTable lcLen (fun _ => false) {} ctxErr =
      RenderOutcome.errorPanel "Could not fetch catalog entities." "boom" :=
  (catalogTable_outcomes lcLen (fun _ => false) {} ctxErr).1 "boom" rfl

/-- Claim C6: the legacy table title is composed of the capitalized user
filter value (defaulting to all when unset), the type filter value and the
pluralized kind filter value, with empty segments omitted and single
spaces between segments, followed by the entity count in parentheses; the
legacy render carries exactly this title; and at user unset, type service,
kind component and three entities the title is exactly
All service components (3). -/
theorem catalog_title_composition :
    (∀ filters n, catalogTableTitle filters n =
      String.intercalate " "
        (([capitalize (filters.user.getD "all"), filters.type.getD "",
           pluralize (filters.kind.getD "")]).filter (fun s => s != "")) ++
        " (" ++ toString n ++ ")") ∧
    (∀ lc isS props ctx, ctx.error = none → props.enablePagination = false →
      ∃ t, CatalogTable lc isS props ctx = RenderOutcome.legacy t ∧
        t.title = catalogTableTitle ctx.filters ctx.entities.length) ∧
    catalogTableTitle
        { kind := some "component", type := some "service", user := none } 3 =
      "All service components (3)" := by
  refine ⟨fun filters n => rfl, fun lc isS props ctx h hflag => ?_, by decide⟩
  simp only [CatalogTable, h, hflag]
  exact ⟨_, rfl, rfl⟩

/-- Claim C6 witness: at a concrete error-free context in legacy mode the
rendered title is the composed title, and the concrete example title
evaluates as claimed. -/
theorem catalog_title_composition_witness :
    (∃ t, CatalogTable lcLen (fun _ => false) {} ctxPlain =
        RenderOutcome.legacy t ∧
      t.title = catalogTableTitle ctxPlain.filters ctxPlain.entities.length) ∧
    catalogTableTitle
        { kind := some "component", type := some "service", user := none } 3 =
      "All service components (3)" :=
  ⟨(catalog_title_composition).2.1 lcLen (fun _ => false) {} ctxPlain rfl rfl,
   (catalog_title_composition).2.2⟩

/-- Claim C3: for every kind filter value without a dedicated switch case
(including an unset kind filter), the kind-specific columns are system,
owner, type and lifecycle, in that order, the type column being hidden
exactly when a type filter is active, and a namespace column is appended
to that block exactly when some entity in the list has a namespace other
than the default one (an unset namespace counts as other than default,
since the code compares for strict equality with the default name). -/
theorem default_columns_other_kinds (filters : Filters)
    (entities : List Entity)
    (hkind : ∀ s, s ∈ ["user", "domain", "system", "group", "template",
      "location"] → filters.kind ≠ some s) :
    defaultColumnsFunc filters entities =
      [columnFactories.createTitleColumn true,
       columnFactories.createNameColumn filters.kind,
       columnFactories.createSystemColumn,
       columnFactories.createOwnerColumn,
       columnFactories.createSpecTypeColumn filters.type.isSome,
       columnFactories.createSpecLifecycleColumn] ++
      (if ∃ e ∈ entities, e.metadata.ns ≠ some "default" then
        [columnFactories.createNamespaceColumn] else []) ++
      [columnFactories.createMetadataDescriptionColumn,
       columnFactories.createTagsColumn] ∧
    ((columnFactories.createSpecTypeColumn filters.type.isSome).hidden
        = true ↔ filters.type ≠ none) := by
  have h1 := hkind "user" (by simp)
  have h2 := hkind "domain" (by simp)
  have h3 := hkind "system" (by simp)
  have h4 := hkind "group" (by simp)
  have h5 := hkind "template" (by simp)
  have h6 := hkind "location" (by simp)
  constructor
  · by_cases hall :
        entities.all (fun e => e.metadata.ns = some "default") = true
    · have hnex : ¬ ∃ e ∈ entities, e.metadata.ns ≠ some "default" := by
        simp only [List.all_eq_true, decide_eq_true_eq] at hall
        push_neg
        exact hall
      cases hft : filters.type <;>
        simp [defaultColumnsFunc, createEntitySpecificColumns, h1, h2, h3,
          h4, h5, h6, hall, hnex, hft]
    · have hex : ∃ e ∈ entities, e.metadata.ns ≠ some "default" := by
        simp only [List.all_eq_true, decide_eq_true_eq] at hall
        push_neg at hall
        exact hall
      cases hft : filters.type <;>
        simp [defaultColumnsFunc, createEntitySpecificColumns, h1, h2, h3,
          h4, h5, h6, hall, hex, hft]
  · cases hft : filters.type <;> simp [columnFactories.createSpecTypeColumn]

/-- Claim C3 witness: at kind filter component with an active type filter
and a single entity in the default namespace, the selection is the base
block without a namespace column, and the type column is hidden. -/
theorem default_columns_other_kinds_witness :
    (defaultColumnsFunc
        { kind := some "component", type := some "service", user := none }
        [entDefaultNs] =
      [columnFactories.createTitleColumn true,
       columnFactories.createNameColumn (some "component"),
       columnFactories.createSystemColumn,
       columnFactories.createOwnerColumn,
       columnFactories.createSpecTypeColumn (some "service").isSome,
       columnFactories.createSpecLifecycleColumn] ++
      (if ∃ e ∈ [entDefaultNs], e.metadata.ns ≠ some "default" then
        [columnFactories.createNamespaceColumn] else []) ++
      [columnFactories.createMetadataDescriptionColumn,
       columnFactories.createTagsColumn]) ∧
    ((columnFactories.createSpecTypeColumn (some "service").isSome).hidden
        = true ↔ (some "service" : Option String) ≠ none) :=
  default_columns_other_kinds
    { kind := some "component", type := some "service", user := none }
    [entDefaultNs]
    (by decide)

/-- Claim C5: in legacy mode, when the caller table options override none
of the paging keys, the pager is enabled exactly when the row count (the
length of the entity list) exceeds 20, the page size is 20 and the
selectable page sizes are 20, 50 and 100. -/
theorem legacy_pagination_options (lc : String → String → Int)
    (actions : List (Entity → RowAction)) (columns : List TableColumn)
    (emptyC : Bool) (entities : List Entity) (loading : Bool)
    (options : Option TableOptionsOverride) (subtitle : Option String)
    (title : String)
    (hov : ∀ o, options = some o →
      o.paging = none ∧ o.pageSize = none ∧ o.pageSizeOptions = none) :
    ((LegacyCatalogTable lc actions columns emptyC entities loading options
        subtitle title).options.paging = true ↔ entities.length > 20) ∧
    (LegacyCatalogTable lc actions columns emptyC entities loading options
        subtitle title).options.pageSize = 20 ∧
    (LegacyCatalogTable lc actions columns emptyC entities loading options
        subtitle title).options.pageSizeOptions = [20, 50, 100] := by
  have hlen : ((sortEntities lc entities).map toEntityRow).length
      = entities.length := by
    simp [sortEntities, List.length_insertionSort]
  cases options with
  | none =>
      simp [LegacyCatalogTable, legacyTableOptions, hlen]
  | some o =>
      obtain ⟨hp, hps, hpo⟩ := hov o rfl
      simp [LegacyCatalogTable, legacyTableOptions, hlen, hp, hps, hpo]

/-- Claim C5 witness: with no caller options, 21 rows enable the pager, 20
rows do not, and the page size is 20. -/
theorem legacy_pagination_options_witness :
    ((LegacyCatalogTable lcLen [] [] false (List.replicate 21 entA) false
        none none "t").options.paging = true) ∧
    ¬ ((LegacyCatalogTable lcLen [] [] false (List.replicate 20 entA) false
        none none "t").options.paging = true) ∧
    (LegacyCatalogTable lcLen [] [] false (List.replicate 21 entA) false
        none none "t").options.pageSize = 20 := by
  refine ⟨?_, ?_, ?_⟩
  · exact (legacy_pagination_options lcLen [] [] false
      (List.replicate 21 entA) false none none "t"
      (fun o h => by cases h)).1.mpr (by decide)
  · intro hcontra
    exact absurd ((legacy_pagination_options lcLen [] [] false
      (List.replicate 20 entA) false none none "t"
      (fun o h => by cases h)).1.mp hcontra) (by decide)
  · exact (legacy_pagination_options lcLen [] [] false
      (List.replicate 21 entA) false none none "t"
      (fun o h => by cases h)).2.1

/-- Claim C7: for every entity, the projected row keeps the entity, its
owner relations are the owned-by relations with no kind filter, its system
relations are the part-of relations filtered to kind system, the owner and
system title strings are the humanized names of those relations (default
kind group for owners, system for systems) joined with a comma and a
space, each empty when there are no such relations, and the stringified
reference is the canonical unique identifier of the entity. The projection
is a pure function, so it performs no input or output. -/
theorem toEntityRow_fields (entity : Entity) :
    (toEntityRow entity).entity = entity ∧
    (toEntityRow entity).resolved.ownedByRelations =
      getEntityRelations entity RELATION_OWNED_BY none ∧
    (toEntityRow entity).resolved.partOfSystemRelations =
      getEntityRelations entity RELATION_PART_OF (some "system") ∧
    (toEntityRow entity).resolved.ownedByRelationsTitle =
      String.intercalate ", "
        ((getEntityRelations entity RELATION_OWNED_BY none).map
          (fun r => humanizeRef r (some "group"))) ∧
    (toEntityRow entity).resolved.partOfSystemRelationTitle =
      String.intercalate ", "
        ((getEntityRelations entity RELATION_PART_OF (some "system")).map
          (fun r => humanizeRef r (some "system"))) ∧
    (getEntityRelations entity RELATION_OWNED_BY none = [] →
      (toEntityRow entity).resolved.ownedByRelationsTitle = "") ∧
    (getEntityRelations entity RELATION_PART_OF (some "system") = [] →
      (toEntityRow entity).resolved.partOfSystemRelationTitle = "") ∧
    (toEntityRow entity).resolved.entityRef = stringifyEntityRef entity := by
  refine ⟨rfl, rfl, rfl, rfl, rfl, fun h => ?_, fun h => ?_, rfl⟩
  · show String.intercalate ", "
      ((getEntityRelations entity RELATION_OWNED_BY none).map
        (fun r => humanizeRef r (some "group"))) = ""
    rw [h]
    rfl
  · show String.intercalate ", "
      ((getEntityRelations entity RELATION_PART_OF (some "system")).map
        (fun r => humanizeRef r (some "system"))) = ""
    rw [h]
    rfl

/-- Claim C7 witness: at an entity with no relations both title strings
are empty and the stringified reference is the canonical identifier. -/
theorem toEntityRow_fields_witness :
    (toEntityRow entPlain).resolved.ownedByRelationsTitle = "" ∧
    (toEntityRow entPlain).resolved.partOfSystemRelationTitle = "" ∧
    (toEntityRow entPlain).resolved.entityRef = stringifyEntityRef entPlain :=
  ⟨(toEntityRow_fields entPlain).2.2.2.2.2.1 rfl,
   (toEntityRow_fields entPlain).2.2.2.2.2.2.1 rfl,
   (toEntityRow_fields entPlain).2.2.2.2.2.2.2⟩

/-- Claim C4 counterexample: with an entity whose title is set but empty,
the code falls back to the humanized reference (the JavaScript or lets an
empty title through), so the rendered rows are not ascending under the
claim reading of display name (title whenever it is set). The concrete
comparator lcLen agrees in sign with the default-locale localeCompare on
the compared display names here. -/
theorem legacy_rows_not_sorted_by_claimed_name :
    ¬ ((LegacyCatalogTable lcLen [] [] false [entEmptyTitle, entA] false
        none none "t").rows).Pairwise
      (fun r s => lcLen (claimedDisplayName r.entity)
        (claimedDisplayName s.entity) ≤ 0) := by decide

/-- Claim C4 (amended): in legacy mode, for every comparator that is
transitive and total in the non-positive sense (which a consistent
localeCompare is), the displayed rows are ordered ascending by display
name, where the display name is the metadata title when it is set and
non-empty, and otherwise the humanized entity reference with default kind
Component (the function toRef of the source). -/
theorem legacy_rows_sorted_by_display_name (lc : String → String → Int)
    (htrans : ∀ a b c : String, lc a b ≤ 0 → lc b c ≤ 0 → lc a c ≤ 0)
    (htotal : ∀ a b : String, lc a b ≤ 0 ∨ lc b a ≤ 0)
    (actions : List (Entity → RowAction)) (columns : List TableColumn)
    (emptyC : Bool) (entities : List Entity) (loading : Bool)
    (options : Option TableOptionsOverride) (subtitle : Option String)
    (title : String) :
    ((LegacyCatalogTable lc actions columns emptyC entities loading options
        subtitle title).rows).Pairwise
      (fun r s => lc (toRef r.entity) (toRef s.entity) ≤ 0) := by
  haveI ht : IsTrans Entity (fun a b => refCompare lc a b ≤ 0) :=
    ⟨fun a b c hab hbc => htrans _ _ _ hab hbc⟩
  haveI hto : IsTotal Entity (fun a b => refCompare lc a b ≤ 0) :=
    ⟨fun a b => htotal _ _⟩
  have hs :=
    List.sorted_insertionSort (fun a b => refCompare lc a b ≤ 0) entities
  show ((sortEntities lc entities).map toEntityRow).Pairwise _
  exact List.Pairwise.map toEntityRow (fun a b h => h) hs

/-- Claim C4 witness: the amended theorem applied to the length comparator
(which is transitive and total) and two concrete entities. -/
theorem legacy_rows_sorted_witness :
    ((LegacyCatalogTable lcLen [] [] false [entB, entA] false none none
        "t").rows).Pairwise
      (fun r s => lcLen (toRef r.entity) (toRef s.entity) ≤ 0) :=
  legacy_rows_sorted_by_display_name lcLen
    (fun a b c h1 h2 => by simp only [lcLen] at *; omega)
    (fun a b => by simp only [lcLen]; omega)
    [] [] false [entB, entA] false none none "t"

/-- Claim C1 (failing input): the legacy render sorts the caller-supplied
entity list in place (Array.prototype.sort on source line 265), so with
two entities whose display names are out of order the caller list ends up
reordered: input [entB, entA] (display names bb, a) is left as
[entA, entB], which is not the input order. The last conjunct records
that the rendered rows are exactly the projection of the reordered
list. -/
theorem legacy_render_reorders_caller_list :
    entitiesAfterLegacyRender lcLen [entB, entA] = [entA, entB] ∧
    ([entA, entB] : List Entity) ≠ [entB, entA] ∧
    (LegacyCatalogTable lcLen [] [] false [entB, entA] false none none
      "t").rows = [toEntityRow entA, toEntityRow entB] :=
  ⟨by decide, by decide, by decide⟩

/-- Claim C8 counterexample: an entity whose view-URL annotation is
present but equal to the empty string: the View action is disabled even
though the annotation is not absent, so disabled is not equivalent to the
annotation being absent. -/
theorem view_action_disabled_not_iff_absent :
    ¬ (((viewAction entEmptyViewUrl).disabled = true) ↔
      entEmptyViewUrl.metadata.annotations.lookup ANNOTATION_VIEW_URL
        = none) := by decide

/-- Claim C8 (amended): the default row actions are used whenever the
caller does not override actions, and then consist of the View, Edit and
toggle-favorite actions in that order; the View action is disabled exactly
when the view-URL annotation is absent or the empty string, its handler
opens that URL in a new browsing context when the annotation is present
and non-empty, and is a no-op whenever the action is disabled (absence is
a normal disabled state, never an error); the Edit action follows the same
pattern with the edit-URL annotation. -/
theorem default_actions_view_edit (entity : Entity) :
    ((viewAction entity).disabled = true ↔
      (entity.metadata.annotations.lookup ANNOTATION_VIEW_URL = none ∨
       entity.metadata.annotations.lookup ANNOTATION_VIEW_URL = some "")) ∧
    (∀ u, entity.metadata.annotations.lookup ANNOTATION_VIEW_URL = some u →
      u ≠ "" →
      (viewAction entity).onClick = ClickEffect.openUrl u "_blank") ∧
    ((viewAction entity).disabled = true →
      (viewAction entity).onClick = ClickEffect.noop) ∧
    ((editAction entity).disabled = true ↔
      (entity.metadata.annotations.lookup ANNOTATION_EDIT_URL = none ∨
       entity.metadata.annotations.lookup ANNOTATION_EDIT_URL = some "")) ∧
    (∀ u, entity.metadata.annotations.lookup ANNOTATION_EDIT_URL = some u →
      u ≠ "" →
      (editAction entity).onClick = ClickEffect.openUrl u "_blank") ∧
    ((editAction entity).disabled = true →
      (editAction entity).onClick = ClickEffect.noop) ∧
    (∀ lc isS props ctx, props.actions = none → ctx.error = none →
      props.enablePagination = false →
      ∃ t, CatalogTable lc isS props ctx = RenderOutcome.legacy t ∧
        t.actions = [viewAction, editAction, favoriteAction isS]) := by
  refine ⟨?_, ?_, ?_, ?_, ?_, ?_, ?_⟩
  · cases hv : entity.metadata.annotations.lookup ANNOTATION_VIEW_URL with
    | none => simp [viewAction, jsTruthyStr, hv]
    | some s => by_cases hs : s = "" <;>
        simp [viewAction, jsTruthyStr, hv, hs]
  · intro u hu hne
    simp [viewAction, jsTruthyStr, hu, hne]
  · intro hd
    cases hv : entity.metadata.annotations.lookup ANNOTATION_VIEW_URL with
    | none => simp [viewAction, jsTruthyStr, hv]
    | some s =>
        simp [viewAction, jsTruthyStr, hv] at hd ⊢
        simp [hd]
  · cases he : entity.metadata.annotations.lookup ANNOTATION_EDIT_URL with
    | none => simp [editAction, jsTruthyStr, he]
    | some s => by_cases hs : s = "" <;>
        simp [editAction, jsTruthyStr, he, hs]
  · intro u hu hne
    simp [editAction, jsTruthyStr, hu, hne]
  · intro hd
    cases he : entity.metadata.annotations.lookup ANNOTATION_EDIT_URL with
    | none => simp [editAction, jsTruthyStr, he]
    | some s =>
        simp [editAction, jsTruthyStr, he] at hd ⊢
        simp [hd]
  · intro lc isS props ctx hact h hflag
    simp only [CatalogTable, h, hflag, hact]
    exact ⟨_, rfl, rfl⟩

/-- Claim C8 witness: at an entity with concrete URLs the View handler
opens the view URL in a new browsing context; at an entity whose view-URL
annotation is empty the disabled View action has a no-op handler; and a
legacy render without caller actions carries the default action list. -/
theorem default_actions_view_edit_witness :
    (viewAction entWithUrls).onClick =
      ClickEffect.openUrl "https://v.example" "_blank" ∧
    (viewAction entEmptyViewUrl).onClick = ClickEffect.noop ∧
    (∃ t, CatalogTable lcLen (fun _ => false) {} ctxPlain =
        RenderOutcome.legacy t ∧
      t.actions = [viewAction, editAction, favoriteAction (fun _ => false)]) :=
  ⟨(default_actions_view_edit entWithUrls).2.1 "https://v.example" rfl
      (by decide),
   (default_actions_view_edit entEmptyViewUrl).2.2.1 (by decide),
   (default_actions_view_edit entPlain).2.2.2.2.2.2 lcLen (fun _ => false)
      {} ctxPlain rfl rfl rfl⟩
